import Mathlib

/-!
Verification of the `meridian-positioning` geodesic library.

The Rust sources under `src/positioning/` are shallowly embedded below.
Floating-point doubles are modelled by `Meridian.F`: either NaN or an exact
rational value (rounding is not modelled; all claims settled here are about
comparison/branching structure or exact algebraic identities).  The
trigonometric operations of `GeoCoordinate::azimuth_to` and
`GeoCoordinate::distance_to` are modelled separately over the real numbers in
the `RealGeo` namespace.
-/

namespace Meridian

/-- Model of an IEEE double (`f64`) or float (`f32`) as used by the
positioning code: either NaN or a finite value represented exactly as a
rational.  Infinities never arise in the modelled fragment.  All NaN values
produced by `f64::NAN` share one bit pattern, so a single `nan` constructor
suffices. -/
inductive F where
  | nan : F
  | val : ℚ → F
deriving DecidableEq

/-- NaN-propagating addition, from IEEE `+` on finite values. -/
def F.add : F → F → F
  | .val a, .val b => .val (a + b)
  | _, _ => .nan

/-- NaN-propagating subtraction. -/
def F.sub : F → F → F
  | .val a, .val b => .val (a - b)
  | _, _ => .nan

/-- NaN-propagating multiplication. -/
def F.mul : F → F → F
  | .val a, .val b => .val (a * b)
  | _, _ => .nan

/-- NaN-propagating division.  The sources only ever divide by the literal
`2.0`, so division by zero (which yields an infinity in IEEE) never occurs. -/
def F.div : F → F → F
  | .val a, .val b => .val (a / b)
  | _, _ => .nan

instance : Add F := ⟨F.add⟩
instance : Sub F := ⟨F.sub⟩
instance : Mul F := ⟨F.mul⟩
instance : Div F := ⟨F.div⟩

/-- IEEE `<=`: false whenever either operand is NaN. -/
def F.le : F → F → Bool
  | .val a, .val b => decide (a ≤ b)
  | _, _ => false

/-- IEEE `<`: false whenever either operand is NaN. -/
def F.lt : F → F → Bool
  | .val a, .val b => decide (a < b)
  | _, _ => false

/-- IEEE `==`: false whenever either operand is NaN. -/
def F.eqb : F → F → Bool
  | .val a, .val b => decide (a = b)
  | _, _ => false

/-- Field kind tag, from `utility.rs` `CoordinateFieldType`. -/
inductive CoordinateFieldType where
  | latitude
  | longitude
deriving DecidableEq

/-- From `utility.rs`, trait method `CoordinateField::valid` for `f64`:
latitude valid iff in `[-90, 90]`, longitude valid iff in `[-180, 180]`
(false on NaN, since IEEE comparisons with NaN are false). -/
def F.valid (x : F) (t : CoordinateFieldType) : Bool :=
  match t with
  | .latitude => F.le (.val (-90)) x && F.le x (.val 90)
  | .longitude => F.le (.val (-180)) x && F.le x (.val 180)

/-- From `utility.rs`, trait method `CoordinateField::wrap` for `f64`:
clamps to the boundary of the range; NaN falls through both comparisons and
is returned unchanged. -/
def F.wrap (x : F) (t : CoordinateFieldType) : F :=
  match t with
  | .latitude =>
    if F.lt (.val 90) x then .val 90
    else if F.lt x (.val (-90)) then .val (-90)
    else x
  | .longitude =>
    if F.lt (.val 180) x then .val 180
    else if F.lt x (.val (-180)) then .val (-180)
    else x

/-- From `coordinate.rs` `GeoCoordinateType`. -/
inductive GeoCoordinateType where
  | invalidCoordinate
  | coordinate2D
  | coordinate3D
deriving DecidableEq

/-- From `coordinate.rs` `GeoCoordinate`: latitude and longitude are `f64`,
altitude an optional `f32`. -/
structure GeoCoordinate where
  latitude : F
  longitude : F
  altitude : Option F
deriving DecidableEq

/-- From `coordinate.rs` `GeoCoordinate::new`. -/
def GeoCoordinate.new (latitude longitude : F) (altitude : Option F) : GeoCoordinate :=
  ⟨latitude, longitude, altitude⟩

/-- From `coordinate.rs` `impl Default for GeoCoordinate`: NaN latitude and
longitude, absent altitude. -/
def GeoCoordinate.default : GeoCoordinate :=
  ⟨.nan, .nan, none⟩

/-- From `coordinate.rs` `GeoCoordinate::coordinate_type`. -/
def GeoCoordinate.coordinate_type (c : GeoCoordinate) : GeoCoordinateType :=
  if F.valid c.latitude .latitude && F.valid c.longitude .longitude then
    if c.altitude.isSome then .coordinate3D else .coordinate2D
  else .invalidCoordinate

/-- From `coordinate.rs` `GeoCoordinate::valid`. -/
def GeoCoordinate.valid (c : GeoCoordinate) : Bool :=
  decide (c.coordinate_type ≠ .invalidCoordinate)

/-- The epsilon used by the `PartialEq` impl in `coordinate.rs`
(`0.0000003` degrees). -/
def epsilon : ℚ := 3 / 10000000

/-- Model of `float_cmp::approx_eq!` with the margin used in `coordinate.rs`:
`epsilon = 0.0000003`, `ulps = 0`.  For finite values this is an
absolute-difference test; a `ulps` difference of `0` additionally makes two
bit-identical values (in particular two copies of the same NaN constant)
compare equal. -/
def F.approxEq (eps : ℚ) : F → F → Bool
  | .val a, .val b => decide (|a - b| ≤ eps)
  | .nan, .nan => true
  | _, _ => false

/-- From `coordinate.rs` `impl PartialEq for GeoCoordinate`, translated
verbatim: note that the first disjunct of the altitude test checks
`other.altitude.is_none()` twice (as the source does). -/
def GeoCoordinate.geoEq (a b : GeoCoordinate) : Bool :=
  F.approxEq epsilon a.latitude b.latitude &&
  F.approxEq epsilon a.longitude b.longitude &&
  ((b.altitude.isNone && b.altitude.isNone) ||
    F.approxEq epsilon (a.altitude.getD (.val 1)) (b.altitude.getD (.val (-1))))

/-- From `georectangle.rs` `GeoRectangle`: stored top-left and bottom-right
corners. -/
structure GeoRectangle where
  tl : GeoCoordinate
  br : GeoCoordinate
deriving DecidableEq

/-- From `georectangle.rs` `GeoRectangle::new`. -/
def GeoRectangle.new (tl br : GeoCoordinate) : GeoRectangle := ⟨tl, br⟩

/-- From `georectangle.rs` `impl Default for GeoRectangle`. -/
def GeoRectangle.default : GeoRectangle :=
  ⟨GeoCoordinate.default, GeoCoordinate.default⟩

/-- From `errors.rs` `PositioningError`. -/
inductive PositioningError where
  | invalidCoordinate : GeoCoordinate → PositioningError
  | invalidGeorectangle : GeoRectangle → PositioningError
  | indexOutOfBounds : Nat → Nat → PositioningError
deriving DecidableEq

/-- From `georectangle.rs` `GeoRectangle::valid`: both corners individually
valid and `tl.latitude >= br.latitude`. -/
def GeoRectangle.valid (r : GeoRectangle) : Bool :=
  r.tl.valid && r.br.valid && F.le r.br.latitude r.tl.latitude

/-- From `georectangle.rs` `GeoRectangle::empty`. -/
def GeoRectangle.empty (r : GeoRectangle) : Bool :=
  if !r.valid then true
  else F.eqb r.tl.latitude r.br.latitude && F.eqb r.tl.longitude r.br.longitude

/-- From `georectangle.rs` `GeoRectangle::top_left`. -/
def GeoRectangle.top_left (r : GeoRectangle) : GeoCoordinate := r.tl

/-- From `georectangle.rs` `GeoRectangle::bottom_right`. -/
def GeoRectangle.bottom_right (r : GeoRectangle) : GeoCoordinate := r.br

/-- From `georectangle.rs` `GeoRectangle::bottom_left` (derived corner). -/
def GeoRectangle.bottom_left (r : GeoRectangle) : GeoCoordinate :=
  GeoCoordinate.new r.br.latitude r.tl.longitude none

/-- From `georectangle.rs` `GeoRectangle::top_right` (derived corner). -/
def GeoRectangle.top_right (r : GeoRectangle) : GeoCoordinate :=
  GeoCoordinate.new r.tl.latitude r.br.longitude none

/-- From `georectangle.rs` `GeoRectangle::center`. -/
def GeoRectangle.center (r : GeoRectangle) : GeoCoordinate :=
  if !r.valid then GeoCoordinate.default
  else
    GeoCoordinate.new
      ((r.tl.latitude + r.br.latitude) / .val 2)
      (F.wrap
        (if F.lt r.br.longitude r.tl.longitude then
          (r.br.longitude + r.tl.longitude) / .val 2 - .val 180
        else (r.br.longitude + r.tl.longitude) / .val 2) .longitude)
      none

/-- From `georectangle.rs` `GeoRectangle::contains`. -/
def GeoRectangle.contains (r : GeoRectangle) (c : GeoCoordinate) :
    Except PositioningError Bool :=
  if !r.valid then .error (.invalidCoordinate r.tl)
  else if !c.valid then .error (.invalidCoordinate c)
  else if F.lt r.tl.latitude c.latitude || F.lt c.latitude r.br.latitude then .ok false
  else if F.eqb c.latitude (.val 90) && F.eqb r.tl.latitude (.val 90) then .ok true
  else if F.eqb c.latitude (.val (-90)) && F.eqb r.br.latitude (.val (-90)) then .ok true
  else if F.le r.tl.longitude r.br.longitude then
    if F.lt c.longitude r.tl.longitude || F.lt r.br.longitude c.longitude then .ok false
    else .ok true
  else
    if F.lt c.longitude r.tl.longitude && F.lt r.br.longitude c.longitude then .ok false
    else .ok true

/-- Stated from the specification sentence for C1, for comparison against
`GeoRectangle.contains`: "when `top_left.longitude <= bottom_right.longitude`
the test is the simple interval test (`P.longitude` in
`[top_left.longitude, bottom_right.longitude]`); otherwise P is outside
exactly when `P.longitude` lies in
`[bottom_right.longitude, top_left.longitude]`" — with the CLOSED interval
the sentence writes.  This is the claim's longitude test, not the code's. -/
def specClaimLongitudeTest (r : GeoRectangle) (p : GeoCoordinate) : Bool :=
  if F.le r.tl.longitude r.br.longitude then
    F.le r.tl.longitude p.longitude && F.le p.longitude r.br.longitude
  else
    !(F.le r.br.longitude p.longitude && F.le p.longitude r.tl.longitude)

/-- From `georectangle.rs` `GeoRectangle::contains_rect`: the Rust `&&`
short-circuits, so a later corner is only tested (and can only raise an
error) when every earlier corner was contained. -/
def GeoRectangle.contains_rect (r o : GeoRectangle) : Except PositioningError Bool :=
  match r.contains o.top_left with
  | .error e => .error e
  | .ok false => .ok false
  | .ok true =>
    match r.contains o.top_right with
    | .error e => .error e
    | .ok false => .ok false
    | .ok true =>
      match r.contains o.bottom_left with
      | .error e => .error e
      | .ok false => .ok false
      | .ok true => r.contains o.bottom_right

/-- From `georectangle.rs` `GeoRectangle::width`. -/
def GeoRectangle.width (r : GeoRectangle) : F :=
  if !r.valid then .val 0
  else
    let w := r.br.longitude - r.tl.longitude
    let w := if F.lt w (.val 0) then w + .val 360 else w
    let w := if F.lt (.val 360) w then w - .val 360 else w
    w

/-- From `georectangle.rs` `GeoRectangle::height`. -/
def GeoRectangle.height (r : GeoRectangle) : F :=
  if !r.valid then .val 0
  else r.tl.latitude - r.br.latitude

/-- From `georectangle.rs` `GeoRectangle::intersects`.  Note the source takes
plain `&GeoRectangle` receivers, performs no validity check, and returns a
plain `bool`, not a `Result`. -/
def GeoRectangle.intersects (r o : GeoRectangle) : Bool :=
  if F.lt r.tl.latitude o.br.latitude || F.lt o.tl.latitude r.br.latitude then false
  else if F.eqb r.tl.latitude (.val 90) && F.eqb r.tl.latitude o.tl.latitude then true
  else if F.eqb r.br.latitude (.val (-90)) && F.eqb r.br.latitude o.br.latitude then true
  else if F.lt r.tl.longitude r.br.longitude then
    if F.lt o.tl.longitude o.br.longitude then
      if F.lt o.br.longitude r.tl.longitude || F.lt r.br.longitude o.tl.longitude then false
      else true
    else
      if F.lt o.br.longitude r.tl.longitude && F.lt r.br.longitude o.tl.longitude then false
      else true
  else
    if F.lt o.tl.longitude o.br.longitude then
      if F.lt r.br.longitude o.tl.longitude && F.lt o.br.longitude r.tl.longitude then false
      else true
    else true

/-- From `georectangle.rs` `GeoRectangle::set_top_left`. -/
def GeoRectangle.set_top_left (r : GeoRectangle) (c : GeoCoordinate) :
    Except PositioningError GeoRectangle :=
  if !c.valid then .error (.invalidCoordinate c)
  else .ok { r with tl := c }

/-- From `georectangle.rs` `GeoRectangle::set_top_right`: writes the stored
top-left latitude and bottom-right longitude. -/
def GeoRectangle.set_top_right (r : GeoRectangle) (c : GeoCoordinate) :
    Except PositioningError GeoRectangle :=
  if !c.valid then .error (.invalidCoordinate c)
  else .ok { tl := { r.tl with latitude := c.latitude },
             br := { r.br with longitude := c.longitude } }

/-- From `georectangle.rs` `GeoRectangle::set_bottom_left`: writes the stored
bottom-right latitude and top-left longitude. -/
def GeoRectangle.set_bottom_left (r : GeoRectangle) (c : GeoCoordinate) :
    Except PositioningError GeoRectangle :=
  if !c.valid then .error (.invalidCoordinate c)
  else .ok { tl := { r.tl with longitude := c.longitude },
             br := { r.br with latitude := c.latitude } }

/-- From `georectangle.rs` `GeoRectangle::set_bottom_right`. -/
def GeoRectangle.set_bottom_right (r : GeoRectangle) (c : GeoCoordinate) :
    Except PositioningError GeoRectangle :=
  if !c.valid then .error (.invalidCoordinate c)
  else .ok { r with br := c }

/-- From `georectangle.rs` `GeoRectangle::set_width`. -/
def GeoRectangle.set_width (r : GeoRectangle) (width_degrees : F) : GeoRectangle :=
  if !r.valid then r
  else if F.lt width_degrees (.val 0) then r
  else if F.lt (.val 360) width_degrees then
    { tl := { r.tl with longitude := .val (-180) },
      br := { r.br with longitude := .val 180 } }
  else
    let c := r.center
    { tl := GeoCoordinate.new r.tl.latitude
        (F.wrap (c.longitude - width_degrees / .val 2) .longitude) none,
      br := GeoCoordinate.new r.br.latitude
        (F.wrap (c.longitude + width_degrees / .val 2) .longitude) none }

/-- The sequential latitude clamping performed, with identical code, at the
end of both `GeoRectangle::set_height` and `GeoRectangle::set_center`: four
`if` statements run in order, each testing the possibly-already-updated
`tl_lat`/`br_lat` pair.  `c` is the relevant center latitude. -/
def clampLatitudeBand (c tl0 br0 : F) : F × F :=
  let s1 := if F.lt (.val 90) tl0 then ((F.val 90 : F), F.val 2 * c - .val 90) else (tl0, br0)
  let s2 := if F.lt s1.1 (.val (-90)) then ((F.val (-90) : F), (F.val (-90) : F)) else s1
  let s3 := if F.lt (.val 90) s2.2 then ((F.val 90 : F), (F.val 90 : F)) else s2
  let s4 := if F.lt s3.2 (.val (-90)) then (F.val 2 * c + .val 90, (F.val (-90) : F)) else s3
  s4

/-- From `georectangle.rs` `GeoRectangle::set_height`. -/
def GeoRectangle.set_height (r : GeoRectangle) (height_degrees : F) : GeoRectangle :=
  if !r.valid then r
  else if F.lt height_degrees (.val 0) || F.lt (.val 180) height_degrees then r
  else
    let c := r.center
    let p := clampLatitudeBand c.latitude
      (c.latitude + height_degrees / .val 2)
      (c.latitude - height_degrees / .val 2)
    { tl := GeoCoordinate.new p.1 r.tl.longitude none,
      br := GeoCoordinate.new p.2 r.br.longitude none }

/-- From `georectangle.rs` `GeoRectangle::set_center`. -/
def GeoRectangle.set_center (r : GeoRectangle) (center : GeoCoordinate) :
    Except PositioningError GeoRectangle :=
  if !center.valid then .error (.invalidCoordinate center)
  else if !r.valid then .error (.invalidGeorectangle r)
  else
    let tl_lon := F.wrap (center.longitude - r.width / .val 2) .longitude
    let br_lon := F.wrap (center.longitude + r.width / .val 2) .longitude
    let p := clampLatitudeBand center.latitude
      (center.latitude + r.height / .val 2)
      (center.latitude - r.height / .val 2)
    let lons := if F.eqb r.width (.val 360) then ((F.val (-180) : F), (F.val 180 : F))
                else (tl_lon, br_lon)
    .ok { tl := GeoCoordinate.new p.1 lons.1 none,
          br := GeoCoordinate.new p.2 lons.2 none }

/-- From `path.rs` `GeoPath`. -/
structure GeoPath where
  path : List GeoCoordinate
deriving DecidableEq

/-- Outcome of a fallible mutation in the Rust sources: a successful result,
a returned `PositioningError`, or a panic raised by a called `Vec` method. -/
inductive MutOutcome (α : Type) where
  | ok : α → MutOutcome α
  | err : PositioningError → MutOutcome α
  | panicked : MutOutcome α
deriving DecidableEq

/-- From `path.rs` `GeoPath::new`: stores the given list as-is. -/
def GeoPath.new (path : List GeoCoordinate) : GeoPath := ⟨path⟩

/-- From `path.rs` `GeoPath::set_path`: stores the given list as-is. -/
def GeoPath.set_path (_p : GeoPath) (path : List GeoCoordinate) : GeoPath := ⟨path⟩

/-- From `path.rs` `GeoPath::size`. -/
def GeoPath.size (p : GeoPath) : Nat := p.path.length

/-- From `path.rs` `GeoPath::add`. -/
def GeoPath.add (p : GeoPath) (c : GeoCoordinate) : MutOutcome GeoPath :=
  if !c.valid then .err (.invalidCoordinate c)
  else .ok ⟨p.path ++ [c]⟩

/-- From `path.rs` `GeoPath::insert`: validates the coordinate but performs
no bounds check of its own; `Vec::insert` shifts the suffix right when
`index <= len` and panics otherwise. -/
def GeoPath.insert (p : GeoPath) (index : Nat) (c : GeoCoordinate) : MutOutcome GeoPath :=
  if !c.valid then .err (.invalidCoordinate c)
  else if index ≤ p.path.length then
    .ok ⟨p.path.take index ++ c :: p.path.drop index⟩
  else .panicked

/-- From `path.rs` `GeoPath::at`. -/
def GeoPath.at (p : GeoPath) (index : Nat) : Except PositioningError GeoCoordinate :=
  match p.path.get? index with
  | none => .error (.indexOutOfBounds index p.path.length)
  | some x => .ok x

/-- From `path.rs` `GeoPath::remove`: explicit bounds check, then
`Vec::remove` shifts the suffix left. -/
def GeoPath.remove (p : GeoPath) (index : Nat) : MutOutcome GeoPath :=
  if index ≥ p.size then .err (.indexOutOfBounds index p.path.length)
  else .ok ⟨p.path.take index ++ p.path.drop (index + 1)⟩

/-- From `path.rs` `GeoPath::replace`: validates the coordinate first, then
the index. -/
def GeoPath.replace (p : GeoPath) (index : Nat) (c : GeoCoordinate) : MutOutcome GeoPath :=
  if !c.valid then .err (.invalidCoordinate c)
  else if index ≥ p.size then .err (.indexOutOfBounds index p.path.length)
  else .ok ⟨p.path.set index c⟩

end Meridian

namespace RealGeo

/-!
Real-valued model of the trigonometric operations of `coordinate.rs`
(`azimuth_to`, `distance_to`).  Latitude/longitude are real numbers; the
rounding of `f64`/`f32` arithmetic is not modelled, and NaN inputs (which the
validity guards reject before any arithmetic runs) are outside this model.
-/

/-- A geographic coordinate with real-valued fields, for the trigonometric
operations of `coordinate.rs`. -/
structure Coordinate where
  latitude : ℝ
  longitude : ℝ
  altitude : Option ℝ

/-- Validity of a coordinate, from `GeoCoordinate::valid` /
`CoordinateField::valid`: latitude in `[-90, 90]` and longitude in
`[-180, 180]`. -/
def Coordinate.valid (c : Coordinate) : Prop :=
  -90 ≤ c.latitude ∧ c.latitude ≤ 90 ∧ -180 ≤ c.longitude ∧ c.longitude ≤ 180

/-- From `errors.rs`, restricted to the variant the coordinate operations
raise. -/
inductive Error where
  | invalidCoordinate : Coordinate → Error

/-- Rust `f64::to_radians`. -/
noncomputable def toRadians (d : ℝ) : ℝ := d * (Real.pi / 180)

/-- Rust `f64::to_degrees`. -/
noncomputable def toDegrees (r : ℝ) : ℝ := r * (180 / Real.pi)

/-- Rust `f64::atan2`: `y.atan2(x)` is the argument of the point `(x, y)`,
in `[-π, π]`. -/
noncomputable def atan2 (y x : ℝ) : ℝ := Complex.arg ⟨x, y⟩

/-- Rust `f64::trunc` (rounds toward zero), as an integer. -/
noncomputable def rtrunc (x : ℝ) : ℤ := if 0 ≤ x then ⌊x⌋ else ⌈x⌉

/-- Rust `f64::fract` (`self - self.trunc()`). -/
noncomputable def rfract (x : ℝ) : ℝ := x - rtrunc x

/-- The final normalization step of `GeoCoordinate::azimuth_to`:
`((azimuth.trunc() + 360.0) as i32 % 360) as f32 + azimuth.fract() as f32`.
Rust's `%` on `i32` is truncated remainder, `Int.tmod`. -/
noncomputable def normalizeAzimuth (az : ℝ) : ℝ :=
  ((Int.tmod (rtrunc az + 360) 360 : ℤ) : ℝ) + rfract az

/-- The intermediate azimuth of `GeoCoordinate::azimuth_to`, before the
normalization step: `degrees(atan2(sin Δλ · cos lat2, cos lat1 · sin lat2 −
sin lat1 · (cos lat2 · cos Δλ))) + 360`. -/
noncomputable def azimuthRaw (a b : Coordinate) : ℝ :=
  let d_lon := toRadians (b.longitude - a.longitude)
  toDegrees (atan2 (Real.sin d_lon * Real.cos (toRadians b.latitude))
    (Real.cos (toRadians a.latitude) * Real.sin (toRadians b.latitude) -
      Real.sin (toRadians a.latitude) *
        (Real.cos (toRadians b.latitude) * Real.cos d_lon))) + 360

open Classical in
/-- From `coordinate.rs` `GeoCoordinate::azimuth_to`. -/
noncomputable def azimuth_to (a b : Coordinate) : Except Error ℝ :=
  if ¬ a.valid then .error (.invalidCoordinate a)
  else if ¬ b.valid then .error (.invalidCoordinate b)
  else .ok (normalizeAzimuth (azimuthRaw a b))

/-- Modelled from the spec: `constants::EARTH_MEAN_RADIUS` (the file
`constants.rs` is not among the provided sources).  Spec §4.2 calls it the
"Earth mean radius constant"; no theorem below depends on its value, only on
it being a fixed constant. -/
noncomputable def EARTH_MEAN_RADIUS : ℝ := 6371008.8

/-- The haversine distance computed by `GeoCoordinate::distance_to`:
`2 · R · asin(√(cos lat1 · cos lat2 · sin²(Δlon/2) + sin²(Δlat/2)))`,
associated exactly as in the source
(`R * (asin (sqrt (cos·cos·sin² + sin²))) * 2`). -/
noncomputable def distanceRaw (a b : Coordinate) : ℝ :=
  EARTH_MEAN_RADIUS *
    Real.arcsin (Real.sqrt
      (Real.cos (toRadians a.latitude) * Real.cos (toRadians b.latitude) *
        Real.sin (toRadians (b.longitude - a.longitude) / 2) ^ 2 +
        Real.sin (toRadians (b.latitude - a.latitude) / 2) ^ 2)) * 2

open Classical in
/-- From `coordinate.rs` `GeoCoordinate::distance_to`. -/
noncomputable def distance_to (a b : Coordinate) : Except Error ℝ :=
  if ¬ a.valid then .error (.invalidCoordinate a)
  else if ¬ b.valid then .error (.invalidCoordinate b)
  else .ok (distanceRaw a b)

/-- The degree measure of any `atan2` result is at least -180, so adding 360
gives a nonnegative value (the `atan2` result lies in `[-π, π]`). -/
theorem atan2_deg_nonneg (y x : ℝ) : 0 ≤ toDegrees (atan2 y x) + 360 := by
  unfold toDegrees atan2
  have hpi : (0:ℝ) < Real.pi := Real.pi_pos
  have harg : -Real.pi ≤ Complex.arg ⟨x, y⟩ := le_of_lt (Complex.neg_pi_lt_arg _)
  have hmul : -Real.pi * (180 / Real.pi) ≤ Complex.arg ⟨x, y⟩ * (180 / Real.pi) :=
    mul_le_mul_of_nonneg_right harg (by positivity)
  have hval : -Real.pi * (180 / Real.pi) = -180 := by field_simp; ring
  linarith

/-- The pre-normalization azimuth is nonnegative. -/
theorem azimuthRaw_nonneg (a b : Coordinate) : 0 ≤ azimuthRaw a b := by
  unfold azimuthRaw
  exact atan2_deg_nonneg _ _

/-- For a nonnegative input, the normalization step returns a value in
`[0, 360)`. -/
theorem normalizeAzimuth_mem (x : ℝ) (hx : 0 ≤ x) :
    0 ≤ normalizeAzimuth x ∧ normalizeAzimuth x < 360 := by
  have hrt : rtrunc x = ⌊x⌋ := if_pos hx
  unfold normalizeAzimuth rfract
  rw [hrt]
  have hn : (0:ℤ) ≤ ⌊x⌋ + 360 := by
    have := Int.floor_nonneg.mpr hx
    omega
  have htm : Int.tmod (⌊x⌋ + 360) 360 = (⌊x⌋ + 360) % 360 :=
    Int.tmod_eq_emod hn (by norm_num)
  have h0 : (0:ℤ) ≤ (⌊x⌋ + 360) % 360 := Int.emod_nonneg _ (by norm_num)
  have h1 : (⌊x⌋ + 360) % 360 < 360 := Int.emod_lt_of_pos _ (by norm_num)
  have hf0 : (0:ℝ) ≤ x - ⌊x⌋ := by
    have := Int.floor_le x
    linarith
  have hf1 : x - ⌊x⌋ < 1 := by
    have := Int.lt_floor_add_one x
    linarith
  constructor
  · rw [htm]
    have : (0:ℝ) ≤ ((⌊x⌋ + 360) % 360 : ℤ) := by exact_mod_cast h0
    linarith
  · rw [htm]
    have h359 : ((⌊x⌋ + 360) % 360 : ℤ) ≤ 359 := by omega
    have : (((⌊x⌋ + 360) % 360 : ℤ) : ℝ) ≤ 359 := by exact_mod_cast h359
    linarith

/-- An intermediate azimuth of exactly 360 is normalized to exactly 0. -/
theorem normalizeAzimuth_360 : normalizeAzimuth 360 = 0 := by
  have hrt : rtrunc 360 = ⌊(360:ℝ)⌋ := if_pos (by norm_num)
  unfold normalizeAzimuth rfract
  rw [hrt]
  have hfl : ⌊(360:ℝ)⌋ = 360 := by norm_num
  rw [hfl]
  have htm : Int.tmod (360 + 360) 360 = 0 := by decide
  rw [htm]
  norm_num

/-- The haversine argument is symmetric in the two endpoints. -/
theorem distanceRaw_comm (a b : Coordinate) : distanceRaw a b = distanceRaw b a := by
  unfold distanceRaw
  have hlon : Real.sin (toRadians (a.longitude - b.longitude) / 2) ^ 2
      = Real.sin (toRadians (b.longitude - a.longitude) / 2) ^ 2 := by
    have h : toRadians (a.longitude - b.longitude)
        = -(toRadians (b.longitude - a.longitude)) := by
      unfold toRadians; ring
    rw [h, neg_div, Real.sin_neg]; ring
  have hlat : Real.sin (toRadians (a.latitude - b.latitude) / 2) ^ 2
      = Real.sin (toRadians (b.latitude - a.latitude) / 2) ^ 2 := by
    have h : toRadians (a.latitude - b.latitude)
        = -(toRadians (b.latitude - a.latitude)) := by
      unfold toRadians; ring
    rw [h, neg_div, Real.sin_neg]; ring
  have hinner : Real.cos (toRadians b.latitude) * Real.cos (toRadians a.latitude) *
        Real.sin (toRadians (a.longitude - b.longitude) / 2) ^ 2 +
        Real.sin (toRadians (a.latitude - b.latitude) / 2) ^ 2
      = Real.cos (toRadians a.latitude) * Real.cos (toRadians b.latitude) *
        Real.sin (toRadians (b.longitude - a.longitude) / 2) ^ 2 +
        Real.sin (toRadians (b.latitude - a.latitude) / 2) ^ 2 := by
    rw [hlon, hlat]; ring
  rw [hinner]

end RealGeo

namespace Meridian

@[simp] theorem F.add_val (a b : ℚ) : (F.val a) + (F.val b) = F.val (a + b) := rfl
@[simp] theorem F.sub_val (a b : ℚ) : (F.val a) - (F.val b) = F.val (a - b) := rfl
@[simp] theorem F.mul_val (a b : ℚ) : (F.val a) * (F.val b) = F.val (a * b) := rfl
@[simp] theorem F.div_val (a b : ℚ) : (F.val a) / (F.val b) = F.val (a / b) := rfl
@[simp] theorem F.le_val (a b : ℚ) : F.le (.val a) (.val b) = decide (a ≤ b) := rfl
@[simp] theorem F.lt_val (a b : ℚ) : F.lt (.val a) (.val b) = decide (a < b) := rfl
@[simp] theorem F.eqb_val (a b : ℚ) : F.eqb (.val a) (.val b) = decide (a = b) := rfl
@[simp] theorem F.le_nan_left (x : F) : F.le .nan x = false := rfl
@[simp] theorem F.lt_nan_left (x : F) : F.lt .nan x = false := rfl
@[simp] theorem F.le_nan_right (x : F) : F.le x .nan = false := by cases x <;> rfl
@[simp] theorem F.lt_nan_right (x : F) : F.lt x .nan = false := by cases x <;> rfl

/-- If an IEEE `<=` comparison succeeded, neither operand was NaN. -/
theorem F.val_of_le_left {x y : F} (h : F.le x y = true) : ∃ a, x = F.val a := by
  cases x with
  | nan => simp at h
  | val a => exact ⟨a, rfl⟩

theorem F.val_of_le_right {x y : F} (h : F.le x y = true) : ∃ b, y = F.val b := by
  cases x <;> cases y <;> first | exact ⟨_, rfl⟩ | simp at h


/-- Wrapping a finite longitude always produces a finite longitude in
`[-180, 180]`. -/
theorem F.wrap_longitude_val (q : ℚ) :
    ∃ q2, F.wrap (.val q) .longitude = F.val q2 ∧ -180 ≤ q2 ∧ q2 ≤ 180 := by
  simp only [F.wrap]
  split_ifs with h1 h2
  · exact ⟨180, rfl, by norm_num, by norm_num⟩
  · exact ⟨-180, rfl, by norm_num, by norm_num⟩
  · simp only [F.lt_val, decide_eq_true_eq] at h1 h2
    exact ⟨q, rfl, by push_neg at h2; linarith, by push_neg at h1; linarith⟩

/-- A valid coordinate has finite components within the geographic ranges. -/
theorem GeoCoordinate.coord_valid_destruct {c : GeoCoordinate} (h : c.valid = true) :
    ∃ la lo, c.latitude = F.val la ∧ c.longitude = F.val lo ∧
      -90 ≤ la ∧ la ≤ 90 ∧ -180 ≤ lo ∧ lo ≤ 180 := by
  unfold GeoCoordinate.valid GeoCoordinate.coordinate_type at h
  simp only [decide_eq_true_eq] at h
  by_cases hv : (F.valid c.latitude .latitude && F.valid c.longitude .longitude) = true
  · simp only [F.valid, Bool.and_eq_true] at hv
    obtain ⟨⟨h1, h2⟩, h3, h4⟩ := hv
    obtain ⟨la, hla⟩ := F.val_of_le_left h2
    obtain ⟨lo, hlo⟩ := F.val_of_le_left h4
    rw [hla] at h1 h2
    rw [hlo] at h3 h4
    simp only [F.le_val, decide_eq_true_eq] at h1 h2 h3 h4
    exact ⟨la, lo, hla, hlo, h1, h2, h3, h4⟩
  · rw [if_neg hv] at h
    exact absurd rfl h

/-- A coordinate whose components are finite values within the geographic
ranges is valid (any altitude). -/
theorem GeoCoordinate.coord_valid_of_parts {la lo : ℚ} (alt : Option F)
    (h1 : -90 ≤ la) (h2 : la ≤ 90) (h3 : -180 ≤ lo) (h4 : lo ≤ 180) :
    (GeoCoordinate.mk (.val la) (.val lo) alt).valid = true := by
  unfold GeoCoordinate.valid GeoCoordinate.coordinate_type F.valid
  rw [if_pos]
  · cases alt <;> simp
  · simp only [F.le_val, Bool.and_eq_true, decide_eq_true_eq]
    exact ⟨⟨h1, h2⟩, h3, h4⟩

/-- A valid rectangle has finite corner components within the geographic
ranges, with the latitudes ordered. -/
theorem GeoRectangle.rect_valid_destruct {r : GeoRectangle} (h : r.valid = true) :
    ∃ ta tg ba bg,
      r.tl.latitude = F.val ta ∧ r.tl.longitude = F.val tg ∧
      r.br.latitude = F.val ba ∧ r.br.longitude = F.val bg ∧
      -90 ≤ ta ∧ ta ≤ 90 ∧ -180 ≤ tg ∧ tg ≤ 180 ∧
      -90 ≤ ba ∧ ba ≤ 90 ∧ -180 ≤ bg ∧ bg ≤ 180 ∧ ba ≤ ta := by
  unfold GeoRectangle.valid at h
  simp only [Bool.and_eq_true] at h
  obtain ⟨⟨htl, hbr⟩, hord⟩ := h
  obtain ⟨ta, tg, h1, h2, h3, h4, h5, h6⟩ := GeoCoordinate.coord_valid_destruct htl
  obtain ⟨ba, bg, h7, h8, h9, h10, h11, h12⟩ := GeoCoordinate.coord_valid_destruct hbr
  rw [h1, h7] at hord
  simp only [F.le_val, decide_eq_true_eq] at hord
  exact ⟨ta, tg, ba, bg, h1, h2, h7, h8, h3, h4, h5, h6, h9, h10, h11, h12, hord⟩

/-- A rectangle whose corners have finite components within the geographic
ranges and ordered latitudes is valid. -/
theorem GeoRectangle.rect_valid_of_parts {ta tg ba bg : ℚ} (alt1 alt2 : Option F)
    (h1 : -90 ≤ ta) (h2 : ta ≤ 90) (h3 : -180 ≤ tg) (h4 : tg ≤ 180)
    (h5 : -90 ≤ ba) (h6 : ba ≤ 90) (h7 : -180 ≤ bg) (h8 : bg ≤ 180)
    (h9 : ba ≤ ta) :
    (GeoRectangle.mk ⟨.val ta, .val tg, alt1⟩ ⟨.val ba, .val bg, alt2⟩).valid = true := by
  unfold GeoRectangle.valid
  rw [GeoCoordinate.coord_valid_of_parts alt1 h1 h2 h3 h4,
    GeoCoordinate.coord_valid_of_parts alt2 h5 h6 h7 h8]
  simp [h9]

/-- On a valid rectangle, `center` produces finite components: a latitude in
`[-90, 90]` (the mean of the corner latitudes) and a longitude in
`[-180, 180]`. -/
theorem GeoRectangle.center_parts {r : GeoRectangle} (hr : r.valid = true) :
    ∃ m lo, (r.center).latitude = F.val m ∧ (r.center).longitude = F.val lo ∧
      -90 ≤ m ∧ m ≤ 90 ∧ -180 ≤ lo ∧ lo ≤ 180 := by
  obtain ⟨ta, tg, ba, bg, e1, e2, e3, e4, b1, b2, b3, b4, b5, b6, b7, b8, b9⟩ :=
    GeoRectangle.rect_valid_destruct hr
  unfold GeoRectangle.center
  rw [hr]
  simp only [Bool.not_true, Bool.false_eq_true, if_false, e1, e2, e3, e4,
    GeoCoordinate.new]
  refine ⟨(ta + ba) / 2, ?_⟩
  have hm1 : -90 ≤ (ta + ba) / 2 := by linarith
  have hm2 : (ta + ba) / 2 ≤ 90 := by linarith
  split_ifs with h
  · simp only [F.add_val, F.div_val, F.sub_val]
    obtain ⟨q2, hq2, hq3, hq4⟩ := F.wrap_longitude_val ((bg + tg) / 2 - 180)
    exact ⟨q2, by trivial, hq2, hm1, hm2, hq3, hq4⟩
  · simp only [F.add_val, F.div_val]
    obtain ⟨q2, hq2, hq3, hq4⟩ := F.wrap_longitude_val ((bg + tg) / 2)
    exact ⟨q2, by trivial, hq2, hm1, hm2, hq3, hq4⟩

/-- The sequential latitude clamping keeps a symmetric band around a center
latitude `m ∈ [-90, 90]` with half-height `h2 ∈ [0, 90]` inside `[-90, 90]`
and ordered. -/
theorem clampLatitudeBand_spec (m h2 : ℚ) (hm1 : -90 ≤ m) (hm2 : m ≤ 90)
    (hh1 : 0 ≤ h2) (hh2 : h2 ≤ 90) :
    ∃ t b, clampLatitudeBand (.val m) (.val (m + h2)) (.val (m - h2)) = (F.val t, F.val b) ∧
      -90 ≤ b ∧ b ≤ t ∧ t ≤ 90 := by
  unfold clampLatitudeBand
  simp only [F.mul_val, F.sub_val, F.add_val]
  split_ifs <;>
    simp_all only [F.lt_val, decide_eq_true_eq, decide_eq_false_iff_not, not_lt] <;>
    refine ⟨_, _, rfl, ?_, ?_, ?_⟩ <;> linarith

/-- On a valid rectangle, `height` is the finite difference of the corner
latitudes, in `[0, 180]`. -/
theorem GeoRectangle.height_val {r : GeoRectangle} (hr : r.valid = true) :
    ∃ h, r.height = F.val h ∧ 0 ≤ h ∧ h ≤ 180 := by
  obtain ⟨ta, tg, ba, bg, e1, e2, e3, e4, b1, b2, b3, b4, b5, b6, b7, b8, b9⟩ :=
    GeoRectangle.rect_valid_destruct hr
  unfold GeoRectangle.height
  rw [hr]
  simp only [Bool.not_true, Bool.false_eq_true, if_false, e1, e3, F.sub_val]
  exact ⟨ta - ba, rfl, by linarith, by linarith⟩

/-- On a valid rectangle, `width` is some finite value. -/
theorem GeoRectangle.width_val {r : GeoRectangle} (hr : r.valid = true) :
    ∃ w, r.width = F.val w := by
  obtain ⟨ta, tg, ba, bg, e1, e2, e3, e4, b1, b2, b3, b4, b5, b6, b7, b8, b9⟩ :=
    GeoRectangle.rect_valid_destruct hr
  unfold GeoRectangle.width
  rw [hr]
  simp only [Bool.not_true, Bool.false_eq_true, if_false, e2, e4, F.sub_val, F.add_val]
  split_ifs <;> simp [F.add_val, F.sub_val]

/-- `set_width` preserves rectangle validity for any nonnegative width. -/
theorem GeoRectangle.set_width_preserves_valid (r : GeoRectangle) (hr : r.valid = true)
    (w : ℚ) (hw : 0 ≤ w) : (r.set_width (.val w)).valid = true := by
  obtain ⟨ta, tg, ba, bg, e1, e2, e3, e4, b1, b2, b3, b4, b5, b6, b7, b8, b9⟩ :=
    GeoRectangle.rect_valid_destruct hr
  obtain ⟨m, lo, c1, c2, m1, m2, l1, l2⟩ := GeoRectangle.center_parts hr
  unfold GeoRectangle.set_width
  rw [hr]
  simp only [Bool.not_true, Bool.false_eq_true, if_false]
  rw [if_neg (by simp [F.lt_val, not_lt, hw])]
  split_ifs with h360
  · rw [show ({ r.tl with longitude := F.val (-180) } : GeoCoordinate)
        = ⟨r.tl.latitude, F.val (-180), r.tl.altitude⟩ from rfl,
      show ({ r.br with longitude := F.val 180 } : GeoCoordinate)
        = ⟨r.br.latitude, F.val 180, r.br.altitude⟩ from rfl, e1, e3]
    exact GeoRectangle.rect_valid_of_parts _ _ b1 b2 (by norm_num) (by norm_num)
      b5 b6 (by norm_num) (by norm_num) b9
  · simp only [GeoCoordinate.new, c2, e1, e3, F.div_val, F.sub_val, F.add_val]
    obtain ⟨q1, hq1, hq2, hq3⟩ := F.wrap_longitude_val (lo - w / 2)
    obtain ⟨q4, hq4, hq5, hq6⟩ := F.wrap_longitude_val (lo + w / 2)
    rw [hq1, hq4]
    exact GeoRectangle.rect_valid_of_parts _ _ b1 b2 hq2 hq3 b5 b6 hq5 hq6 b9

/-- `set_height` preserves rectangle validity for any height in `[0, 180]`. -/
theorem GeoRectangle.set_height_preserves_valid (r : GeoRectangle) (hr : r.valid = true)
    (h : ℚ) (h0 : 0 ≤ h) (h180 : h ≤ 180) : (r.set_height (.val h)).valid = true := by
  obtain ⟨ta, tg, ba, bg, e1, e2, e3, e4, b1, b2, b3, b4, b5, b6, b7, b8, b9⟩ :=
    GeoRectangle.rect_valid_destruct hr
  obtain ⟨m, lo, c1, c2, m1, m2, l1, l2⟩ := GeoRectangle.center_parts hr
  unfold GeoRectangle.set_height
  rw [hr]
  simp only [Bool.not_true, Bool.false_eq_true, if_false]
  rw [if_neg (by simp [F.lt_val, not_lt, h0, h180])]
  simp only [GeoCoordinate.new, c1, F.div_val, F.sub_val, F.add_val]
  obtain ⟨t, b, hp, hb1, hb2, hb3⟩ :=
    clampLatitudeBand_spec m (h / 2) m1 m2 (by linarith) (by linarith)
  rw [hp]
  rw [e2, e4]
  exact GeoRectangle.rect_valid_of_parts _ _ (by linarith) hb3 b3 b4 hb1 (by linarith)
    b7 b8 hb2

/-- `set_center` succeeds on a valid rectangle and valid center, and the
result is a valid rectangle. -/
theorem GeoRectangle.set_center_preserves_valid (r : GeoRectangle) (hr : r.valid = true)
    (c : GeoCoordinate) (hc : c.valid = true) :
    ∃ r2, r.set_center c = .ok r2 ∧ r2.valid = true := by
  obtain ⟨cla, clo, ec1, ec2, d1, d2, d3, d4⟩ := GeoCoordinate.coord_valid_destruct hc
  obtain ⟨h, hh, hh0, hh180⟩ := GeoRectangle.height_val hr
  obtain ⟨w, hw⟩ := GeoRectangle.width_val hr
  unfold GeoRectangle.set_center
  rw [hr, hc]
  simp only [Bool.not_true, Bool.false_eq_true, if_false]
  simp only [GeoCoordinate.new, ec1, ec2, hh, hw, F.div_val, F.sub_val, F.add_val]
  obtain ⟨t, b, hp, hb1, hb2, hb3⟩ :=
    clampLatitudeBand_spec cla (h / 2) d1 d2 (by linarith) (by linarith)
  rw [hp]
  obtain ⟨q1, hq1, hq2, hq3⟩ := F.wrap_longitude_val (clo - w / 2)
  obtain ⟨q4, hq4, hq5, hq6⟩ := F.wrap_longitude_val (clo + w / 2)
  rw [hq1, hq4]
  split_ifs with hbig
  · exact ⟨_, rfl, GeoRectangle.rect_valid_of_parts _ _ (by linarith) hb3 (by norm_num)
      (by norm_num) hb1 (by linarith) (by norm_num) (by norm_num) hb2⟩
  · exact ⟨_, rfl, GeoRectangle.rect_valid_of_parts _ _ (by linarith) hb3 hq2 hq3
      hb1 (by linarith) hq5 hq6 hb2⟩

/-- C1 (amended): for every valid rectangle and valid coordinate whose
latitude lies in the rectangle's latitude band and which triggers neither
pole shortcut, `contains` decides longitude by branching on
`tl.longitude <= br.longitude`: in the simple case the point is contained
iff its longitude lies in the closed interval `[tl.longitude, br.longitude]`;
in the antimeridian-crossing case the point is outside exactly when its
longitude lies in the OPEN interval `(br.longitude, tl.longitude)` (the
source compares strictly, so both interval endpoints are contained). -/
theorem C1_contains_longitude_branching (r : GeoRectangle) (p : GeoCoordinate)
    (hr : r.valid = true) (hp : p.valid = true)
    (hlat : (F.lt r.tl.latitude p.latitude || F.lt p.latitude r.br.latitude) = false)
    (hpole1 : (F.eqb p.latitude (.val 90) && F.eqb r.tl.latitude (.val 90)) = false)
    (hpole2 : (F.eqb p.latitude (.val (-90)) && F.eqb r.br.latitude (.val (-90))) = false) :
    r.contains p = .ok
      (if F.le r.tl.longitude r.br.longitude then
        F.le r.tl.longitude p.longitude && F.le p.longitude r.br.longitude
      else
        !(F.lt r.br.longitude p.longitude && F.lt p.longitude r.tl.longitude)) := by
  obtain ⟨ta, tg, ba, bg, e1, e2, e3, e4, _, _, _, _, _, _, _, _, _⟩ :=
    GeoRectangle.rect_valid_destruct hr
  obtain ⟨pa, pg, f1, f2, _, _, _, _⟩ := GeoCoordinate.coord_valid_destruct hp
  unfold GeoRectangle.contains
  rw [hr, hp, hlat, hpole1, hpole2]
  simp only [Bool.not_true, Bool.false_eq_true, if_false, e2, e4, f2, F.le_val, F.lt_val]
  by_cases hc : tg ≤ bg
  · rw [decide_eq_true hc]
    simp only [if_true]
    split_ifs with h <;>
      simp_all only [Bool.or_eq_true, decide_eq_true_eq, Except.ok.injEq, not_or, not_lt] <;>
    [ (rcases h with h | h <;> simp [decide_eq_false, not_le.mpr h]);
      (simp [decide_eq_true h.1, decide_eq_true h.2]) ]
  · rw [decide_eq_false hc]
    simp only [Bool.false_eq_true, if_false]
    split_ifs with h <;>
      simp_all only [Bool.and_eq_true, decide_eq_true_eq, Except.ok.injEq]
    · simp [decide_eq_true h.1, decide_eq_true h.2]
    · by_cases h2 : bg < pg
      · have h3 : ¬ (pg < tg) := fun hpt => h ⟨hpt, h2⟩
        simp [decide_eq_true h2, decide_eq_false h3]
      · simp [decide_eq_false h2]

/-- C1 counterexample: the rectangle with tl = (10°, 170°), br = (0°, -170°)
crosses the antimeridian (`tl.longitude > br.longitude`); the coordinate
(5°, -170°) has longitude equal to `br.longitude`, hence lies in the closed
interval `[br.longitude, tl.longitude] = [-170, 170]` and the claim's
sentence classifies it OUTSIDE, but `contains` returns `Ok(true)`. -/
theorem C1_counterexample :
    (GeoRectangle.mk ⟨.val 10, .val 170, none⟩ ⟨.val 0, .val (-170), none⟩).valid = true ∧
    (GeoCoordinate.mk (.val 5) (.val (-170)) none).valid = true ∧
    specClaimLongitudeTest
      (GeoRectangle.mk ⟨.val 10, .val 170, none⟩ ⟨.val 0, .val (-170), none⟩)
      (GeoCoordinate.mk (.val 5) (.val (-170)) none) = false ∧
    GeoRectangle.contains
      (GeoRectangle.mk ⟨.val 10, .val 170, none⟩ ⟨.val 0, .val (-170), none⟩)
      (GeoCoordinate.mk (.val 5) (.val (-170)) none) = .ok true :=
  ⟨by decide, by decide, by decide, by rfl⟩

/-- Witness for C1 at the antimeridian-crossing rectangle tl = (10°, 170°),
br = (0°, -170°) and the point (5°, -170°). -/
theorem C1_witness :
    GeoRectangle.contains
      (GeoRectangle.mk ⟨.val 10, .val 170, none⟩ ⟨.val 0, .val (-170), none⟩)
      (GeoCoordinate.mk (.val 5) (.val (-170)) none)
    = .ok
      (if F.le (F.val 170) (F.val (-170)) then
        F.le (F.val 170) (F.val (-170)) && F.le (F.val (-170)) (F.val (-170))
      else
        !(F.lt (F.val (-170)) (F.val (-170)) && F.lt (F.val (-170)) (F.val 170))) :=
  C1_contains_longitude_branching _ _ (by decide) (by decide) (by decide) (by decide)
    (by decide)

/-- C2: on a valid rectangle, `set_width` with any nonnegative width,
`set_height` with any height in `[0, 180]`, and `set_center` with any valid
center coordinate each leave the rectangle valid (both corners individually
valid and `tl.latitude >= br.latitude`), including pole-boundary inputs. -/
theorem C2_dimension_setters_preserve_validity (r : GeoRectangle) (hr : r.valid = true)
    (w h : ℚ) (hw : 0 ≤ w) (h0 : 0 ≤ h) (h180 : h ≤ 180)
    (c : GeoCoordinate) (hc : c.valid = true) :
    (r.set_width (.val w)).valid = true ∧
    (r.set_height (.val h)).valid = true ∧
    ∃ r2, r.set_center c = .ok r2 ∧ r2.valid = true :=
  ⟨GeoRectangle.set_width_preserves_valid r hr w hw,
   GeoRectangle.set_height_preserves_valid r hr h h0 h180,
   GeoRectangle.set_center_preserves_valid r hr c hc⟩

/-- Witness for C2 at the pole-touching rectangle tl = (90°, 0°),
br = (80°, 10°), with width 10°, the maximal height 180°, and new center
(85°, 5°). -/
theorem C2_witness :
    ((GeoRectangle.mk ⟨.val 90, .val 0, none⟩ ⟨.val 80, .val 10, none⟩).set_width
      (.val 10)).valid = true ∧
    ((GeoRectangle.mk ⟨.val 90, .val 0, none⟩ ⟨.val 80, .val 10, none⟩).set_height
      (.val 180)).valid = true ∧
    ∃ r2, (GeoRectangle.mk ⟨.val 90, .val 0, none⟩ ⟨.val 80, .val 10, none⟩).set_center
        (GeoCoordinate.mk (.val 85) (.val 5) none) = .ok r2 ∧ r2.valid = true :=
  C2_dimension_setters_preserve_validity _ (by decide) 10 180 (by decide) (by decide)
    (by decide) _ (by decide)

/-- C3 (amended): on a valid rectangle, each corner setter accepts any valid
coordinate and leaves both stored corners individually valid coordinates; the
ordering half of the invariant (`tl.latitude >= br.latitude`) is NOT
re-established (see the counterexample). -/
theorem C3_corner_setters_keep_corners_valid (r : GeoRectangle) (hr : r.valid = true)
    (c : GeoCoordinate) (hc : c.valid = true) :
    (∃ r1, r.set_top_left c = .ok r1 ∧ r1.tl.valid = true ∧ r1.br.valid = true) ∧
    (∃ r2, r.set_top_right c = .ok r2 ∧ r2.tl.valid = true ∧ r2.br.valid = true) ∧
    (∃ r3, r.set_bottom_left c = .ok r3 ∧ r3.tl.valid = true ∧ r3.br.valid = true) ∧
    (∃ r4, r.set_bottom_right c = .ok r4 ∧ r4.tl.valid = true ∧ r4.br.valid = true) := by
  have hcorners : r.tl.valid = true ∧ r.br.valid = true := by
    unfold GeoRectangle.valid at hr
    simp only [Bool.and_eq_true] at hr
    exact ⟨hr.1.1, hr.1.2⟩
  obtain ⟨htl, hbr⟩ := hcorners
  obtain ⟨ca, cg, ec1, ec2, d1, d2, d3, d4⟩ := GeoCoordinate.coord_valid_destruct hc
  obtain ⟨ta, tg, e1, e2, b1, b2, b3, b4⟩ := GeoCoordinate.coord_valid_destruct htl
  obtain ⟨ba, bg, e3, e4, b5, b6, b7, b8⟩ := GeoCoordinate.coord_valid_destruct hbr
  have htr : (GeoCoordinate.mk c.latitude r.tl.longitude r.tl.altitude).valid = true := by
    rw [ec1, e2]
    exact GeoCoordinate.coord_valid_of_parts _ d1 d2 b3 b4
  have hbr2 : (GeoCoordinate.mk r.br.latitude c.longitude r.br.altitude).valid = true := by
    rw [e3, ec2]
    exact GeoCoordinate.coord_valid_of_parts _ b5 b6 d3 d4
  have htl2 : (GeoCoordinate.mk r.tl.latitude c.longitude r.tl.altitude).valid = true := by
    rw [e1, ec2]
    exact GeoCoordinate.coord_valid_of_parts _ b1 b2 d3 d4
  have hbl : (GeoCoordinate.mk c.latitude r.br.longitude r.br.altitude).valid = true := by
    rw [ec1, e4]
    exact GeoCoordinate.coord_valid_of_parts _ d1 d2 b7 b8
  refine ⟨⟨{ r with tl := c }, ?_, hc, hbr⟩,
    ⟨⟨⟨c.latitude, r.tl.longitude, r.tl.altitude⟩,
      ⟨r.br.latitude, c.longitude, r.br.altitude⟩⟩, ?_, htr, hbr2⟩,
    ⟨⟨⟨r.tl.latitude, c.longitude, r.tl.altitude⟩,
      ⟨c.latitude, r.br.longitude, r.br.altitude⟩⟩, ?_, htl2, hbl⟩,
    ⟨{ r with br := c }, ?_, htl, hc⟩⟩
  · unfold GeoRectangle.set_top_left; rw [hc]; rfl
  · unfold GeoRectangle.set_top_right; rw [hc]; rfl
  · unfold GeoRectangle.set_bottom_left; rw [hc]; rfl
  · unfold GeoRectangle.set_bottom_right; rw [hc]; rfl

/-- C3 counterexample: on the valid rectangle tl = (10°, 0°), br = (0°, 10°),
`set_top_left` with the valid coordinate (-50°, 0°) succeeds but leaves
`tl.latitude < br.latitude`, so the resulting rectangle violates the
validity invariant. -/
theorem C3_counterexample :
    (GeoRectangle.mk ⟨.val 10, .val 0, none⟩ ⟨.val 0, .val 10, none⟩).valid = true ∧
    (GeoCoordinate.mk (.val (-50)) (.val 0) none).valid = true ∧
    GeoRectangle.set_top_left
      (GeoRectangle.mk ⟨.val 10, .val 0, none⟩ ⟨.val 0, .val 10, none⟩)
      (GeoCoordinate.mk (.val (-50)) (.val 0) none)
      = .ok (GeoRectangle.mk ⟨.val (-50), .val 0, none⟩ ⟨.val 0, .val 10, none⟩) ∧
    (GeoRectangle.mk ⟨.val (-50), .val 0, none⟩ ⟨.val 0, .val 10, none⟩).valid = false :=
  ⟨by decide, by decide, by rfl, by decide⟩

/-- Witness for C3 at the rectangle tl = (10°, 0°), br = (0°, 10°) and the
coordinate (5°, 5°). -/
theorem C3_witness :
    (∃ r1, (GeoRectangle.mk ⟨.val 10, .val 0, none⟩ ⟨.val 0, .val 10, none⟩).set_top_left
        (GeoCoordinate.mk (.val 5) (.val 5) none) = .ok r1 ∧
      r1.tl.valid = true ∧ r1.br.valid = true) ∧
    (∃ r2, (GeoRectangle.mk ⟨.val 10, .val 0, none⟩ ⟨.val 0, .val 10, none⟩).set_top_right
        (GeoCoordinate.mk (.val 5) (.val 5) none) = .ok r2 ∧
      r2.tl.valid = true ∧ r2.br.valid = true) ∧
    (∃ r3, (GeoRectangle.mk ⟨.val 10, .val 0, none⟩ ⟨.val 0, .val 10, none⟩).set_bottom_left
        (GeoCoordinate.mk (.val 5) (.val 5) none) = .ok r3 ∧
      r3.tl.valid = true ∧ r3.br.valid = true) ∧
    (∃ r4, (GeoRectangle.mk ⟨.val 10, .val 0, none⟩ ⟨.val 0, .val 10, none⟩).set_bottom_right
        (GeoCoordinate.mk (.val 5) (.val 5) none) = .ok r4 ∧
      r4.tl.valid = true ∧ r4.br.valid = true) :=
  C3_corner_setters_keep_corners_valid _ (by decide) _ (by decide)

/-- C4 (code evaluation at the failing input): with A = (0°, 0°, altitude 5)
and B = (0°, 0°, no altitude), the `PartialEq` impl returns `A == B = true`
— the duplicated `other.altitude.is_none()` check short-circuits the
altitude comparison whenever the right-hand side has no altitude — while
`B == A = false`, so the altitude-field condition of the claim, and the
symmetry required of `PartialEq` itself, both fail. -/
theorem C4_code_evaluation :
    GeoCoordinate.geoEq (GeoCoordinate.mk (.val 0) (.val 0) (some (.val 5)))
      (GeoCoordinate.mk (.val 0) (.val 0) none) = true ∧
    GeoCoordinate.geoEq (GeoCoordinate.mk (.val 0) (.val 0) none)
      (GeoCoordinate.mk (.val 0) (.val 0) (some (.val 5))) = false := by
  constructor
  · simp [GeoCoordinate.geoEq, F.approxEq, epsilon]
    norm_num
  · simp [GeoCoordinate.geoEq, F.approxEq, epsilon]
    norm_num

/-- C6 counterexample: `intersects` has return type `bool` and performs no
validity check; on the default (invalid) rectangle it returns the silently
computed boolean `true` instead of any error. -/
theorem C6_counterexample :
    GeoRectangle.default.valid = false ∧
    GeoRectangle.intersects GeoRectangle.default GeoRectangle.default = true :=
  ⟨by rfl, by rfl⟩

/-- C6 (amended): `contains` returns an error whenever either operand is
invalid, and `contains_rect` returns an error whenever the receiver is
invalid; `intersects`, however, performs no validity check and returns a
plain boolean (see the counterexample), and `contains_rect` does not detect
an argument invalid only through its corner ordering. -/
theorem C6_invalid_operands_error (r : GeoRectangle) (c : GeoCoordinate)
    (o : GeoRectangle) :
    (r.valid = false ∨ c.valid = false → ∃ e, r.contains c = .error e) ∧
    (r.valid = false → ∃ e, r.contains_rect o = .error e) := by
  constructor
  · rintro (h | h)
    · exact ⟨_, by unfold GeoRectangle.contains; rw [h]; rfl⟩
    · by_cases hr : r.valid = true
      · exact ⟨_, by unfold GeoRectangle.contains; rw [hr, h]; rfl⟩
      · have h2 : r.valid = false := by simpa using hr
        exact ⟨_, by unfold GeoRectangle.contains; rw [h2]; rfl⟩
  · intro h
    have he : r.contains o.top_left
        = .error (.invalidCoordinate r.tl) := by
      unfold GeoRectangle.contains; rw [h]; rfl
    exact ⟨_, by unfold GeoRectangle.contains_rect; rw [he]⟩

/-- Witness for C6 at the default (invalid) rectangle and the valid
coordinate (0°, 0°). -/
theorem C6_witness :
    (∃ e, GeoRectangle.default.contains (GeoCoordinate.mk (.val 0) (.val 0) none)
      = .error e) ∧
    (∃ e, GeoRectangle.default.contains_rect GeoRectangle.default = .error e) :=
  ⟨(C6_invalid_operands_error GeoRectangle.default
      (GeoCoordinate.mk (.val 0) (.val 0) none) GeoRectangle.default).1
      (Or.inl (by rfl)),
   (C6_invalid_operands_error GeoRectangle.default
      (GeoCoordinate.mk (.val 0) (.val 0) none) GeoRectangle.default).2 (by rfl)⟩

/-- C7 (code evaluation at the failing input): on the empty path with index 1
(strictly greater than the length 0) and a valid coordinate, `insert` panics
inside `Vec::insert` — it has no bounds check of its own — while `remove`
and `replace` return `IndexOutOfBounds(1, 0)` as the claim requires of all
three. -/
theorem C7_code_evaluation :
    GeoPath.insert ⟨[]⟩ 1 (GeoCoordinate.mk (.val 0) (.val 0) none)
      = .panicked ∧
    GeoPath.remove ⟨[]⟩ 1 = .err (.indexOutOfBounds 1 0) ∧
    GeoPath.replace ⟨[]⟩ 1 (GeoCoordinate.mk (.val 0) (.val 0) none)
      = .err (.indexOutOfBounds 1 0) :=
  ⟨by rfl, by rfl, by rfl⟩

/-- C8 counterexample: the coordinate (NaN, NaN, altitude 1.0) differs from
the default coordinate in its altitude field, yet compares equal to it: the
absent altitude on the left is replaced by the sentinel `unwrap_or(1.0)`,
which is within epsilon of the right-hand altitude 1.0. -/
theorem C8_counterexample :
    GeoCoordinate.geoEq GeoCoordinate.default
      (GeoCoordinate.mk .nan .nan (some (.val 1))) = true ∧
    GeoCoordinate.mk .nan .nan (some (.val 1)) ≠ GeoCoordinate.default := by
  constructor
  · simp [GeoCoordinate.geoEq, GeoCoordinate.default, F.approxEq, epsilon]
    norm_num
  · decide

/-- C8 (amended): the default coordinate is never valid; it equals another
default; and `default == C` holds exactly when C's latitude and longitude
are NaN and C's altitude is either absent or a finite value within epsilon
of the sentinel 1.0 — so "equal only to another default" fails exactly for
the near-1.0 altitudes. -/
theorem C8_default_equality :
    GeoCoordinate.default.valid = false ∧
    GeoCoordinate.geoEq GeoCoordinate.default GeoCoordinate.default = true ∧
    ∀ c : GeoCoordinate, (GeoCoordinate.geoEq GeoCoordinate.default c = true ↔
      (c.latitude = .nan ∧ c.longitude = .nan ∧
        (c.altitude = none ∨ ∃ q, c.altitude = some (.val q) ∧ |1 - q| ≤ epsilon))) := by
  refine ⟨by rfl, by rfl, ?_⟩
  intro c
  obtain ⟨lat, lon, alt⟩ := c
  simp only [GeoCoordinate.geoEq, GeoCoordinate.default]
  cases lat with
  | val q => simp [F.approxEq]
  | nan =>
    cases lon with
    | val q => simp [F.approxEq]
    | nan =>
      cases alt with
      | none => simp [F.approxEq]
      | some a =>
        cases a with
        | nan => simp [F.approxEq]
        | val q => simp [F.approxEq]

/-- C10: `GeoPath::new` and `GeoPath::set_path` store the given list without
any validity check: a vector containing the invalid coordinate (100°, 0°) is
stored as-is, so the resulting path holds an invalid element — the
element-validity invariant enforced by `add`, `insert` and `replace` is not
preserved by `new` or `set_path`. -/
theorem C10_new_set_path_unchecked :
    (GeoCoordinate.mk (.val 100) (.val 0) none).valid = false ∧
    (GeoPath.new [GeoCoordinate.mk (.val 100) (.val 0) none]).path
      = [GeoCoordinate.mk (.val 100) (.val 0) none] ∧
    (GeoPath.set_path ⟨[]⟩ [GeoCoordinate.mk (.val 100) (.val 0) none]).path
      = [GeoCoordinate.mk (.val 100) (.val 0) none] :=
  ⟨by rfl, rfl, rfl⟩

end Meridian

namespace RealGeo

/-- C5: for every pair of valid coordinates, `azimuth_to` succeeds and its
result lies in the half-open interval `[0, 360)`; moreover the normalization
step (reduce the truncated integer part modulo 360 after adding 360, then
re-add the fractional part) maps an intermediate value of exactly 360 down
to exactly 0. -/
theorem C5_azimuth_range (a b : Coordinate) (ha : a.valid) (hb : b.valid) :
    (azimuth_to a b = .ok (normalizeAzimuth (azimuthRaw a b)) ∧
      0 ≤ normalizeAzimuth (azimuthRaw a b) ∧
      normalizeAzimuth (azimuthRaw a b) < 360) ∧
    normalizeAzimuth 360 = 0 := by
  obtain ⟨h0, h1⟩ := normalizeAzimuth_mem _ (azimuthRaw_nonneg a b)
  refine ⟨⟨?_, h0, h1⟩, normalizeAzimuth_360⟩
  unfold azimuth_to
  rw [if_neg (not_not_intro ha), if_neg (not_not_intro hb)]

/-- Witness for C5 at the valid coordinates (60°, 30°) and (59°, 30°). -/
theorem C5_witness :
    (azimuth_to ⟨60, 30, none⟩ ⟨59, 30, none⟩
        = .ok (normalizeAzimuth (azimuthRaw ⟨60, 30, none⟩ ⟨59, 30, none⟩)) ∧
      0 ≤ normalizeAzimuth (azimuthRaw ⟨60, 30, none⟩ ⟨59, 30, none⟩) ∧
      normalizeAzimuth (azimuthRaw ⟨60, 30, none⟩ ⟨59, 30, none⟩) < 360) ∧
    normalizeAzimuth 360 = 0 :=
  C5_azimuth_range ⟨60, 30, none⟩ ⟨59, 30, none⟩
    (by show (-90:ℝ) ≤ 60 ∧ (60:ℝ) ≤ 90 ∧ (-180:ℝ) ≤ 30 ∧ (30:ℝ) ≤ 180; norm_num)
    (by show (-90:ℝ) ≤ 59 ∧ (59:ℝ) ≤ 90 ∧ (-180:ℝ) ≤ 30 ∧ (30:ℝ) ≤ 180; norm_num)

/-- C9: for every pair of valid coordinates, `distance_to` succeeds and is
symmetric in its two endpoints: the haversine computation commutes exactly
in the real-valued model, so the floating-point code agrees up to rounding. -/
theorem C9_distance_symmetric (a b : Coordinate) (ha : a.valid) (hb : b.valid) :
    distance_to a b = distance_to b a ∧
    distance_to a b = .ok (distanceRaw a b) := by
  unfold distance_to
  rw [if_neg (not_not_intro ha), if_neg (not_not_intro hb),
    if_neg (not_not_intro hb), if_neg (not_not_intro ha), distanceRaw_comm]
  exact ⟨rfl, by rw [distanceRaw_comm]⟩

/-- Witness for C9 at the valid coordinates (60°, 30°) and (59°, 29°). -/
theorem C9_witness :
    distance_to ⟨60, 30, none⟩ ⟨59, 29, none⟩
        = distance_to ⟨59, 29, none⟩ ⟨60, 30, none⟩ ∧
    distance_to ⟨60, 30, none⟩ ⟨59, 29, none⟩
        = .ok (distanceRaw ⟨60, 30, none⟩ ⟨59, 29, none⟩) :=
  C9_distance_symmetric ⟨60, 30, none⟩ ⟨59, 29, none⟩
    (by show (-90:ℝ) ≤ 60 ∧ (60:ℝ) ≤ 90 ∧ (-180:ℝ) ≤ 30 ∧ (30:ℝ) ≤ 180; norm_num)
    (by show (-90:ℝ) ≤ 59 ∧ (59:ℝ) ≤ 90 ∧ (-180:ℝ) ≤ 29 ∧ (29:ℝ) ≤ 180; norm_num)

end RealGeo
